import Mathlib

/-!
Verification development for the STYLO wardrobe backend
(repository dikshithreddym/STYLO, directory backend/app).

The Python source is shallowly embedded in Lean 4.  Conventions:

* Python floats are modelled by exact rationals.  None of the
  theorems below depends on rounding behaviour: they concern control
  flow, list ordering and exact constants.
* External collaborators (the sentence-transformer model, the real
  square root used by numpy linalg norm, the webcolors and colormath
  libraries) are parameters, collected in the structure Env.  All code
  of the repository itself is embedded, not parameterised.
* Python dictionaries with a fixed key set become structures; the
  insertion-ordered dictionaries built at runtime become association
  lists in insertion order.
* Python list.sort with a score key and reverse set is a stable
  descending sort; it is embedded as insertion sort with the relation
  that places an element before the first strictly smaller key, which
  has exactly the stability behaviour of the Python sort.
-/

/-- Vectors produced by the embedding model (numpy arrays in the source). -/
abbrev Vec := List ℚ

/-- Python substring test on lists of characters: needle occurs inside hay. -/
def leadsWith : List Char → List Char → Bool
  | [], _ => true
  | _ :: _, [] => false
  | a :: as, b :: bs => a == b && leadsWith as bs

/-- Helper for pyIn: does the needle occur at some position of the hay. -/
def containsSub (n : List Char) : List Char → Bool
  | [] => leadsWith n []
  | c :: t => leadsWith n (c :: t) || containsSub n t

/-- Python membership test on strings, as in token in text. -/
def pyIn (needle hay : String) : Bool := containsSub needle.toList hay.toList

/-- Python str.lower, written over the character list so that the
kernel can evaluate it. -/
def lowerStr (s : String) : String := ⟨s.toList.map Char.toLower⟩

/-- Python str.strip, written over the character list so that the
kernel can evaluate it. -/
def pyStrip (s : String) : String :=
  ⟨((s.toList.dropWhile Char.isWhitespace).reverse.dropWhile Char.isWhitespace).reverse⟩

/-- Python f-string rendering of a value that may be None: None prints
as the four letter word None (this matters: the selector concatenates
name and description with an f-string, so a null description becomes
the text None inside the searchable string). -/
def fmtNone : Option String → String
  | none => "None"
  | some s => s

/-- Python truthiness of an optional string: None and the empty string
are falsy. -/
def strTruthy : Option String → Bool
  | none => false
  | some s => s ≠ ""

/-- Python expression a or b on optional strings (used for rationale
fallbacks in the LLM delegate). -/
def strOr (a b : Option String) : Option String :=
  if strTruthy a then a else b

section StableSort

variable {α : Type}

/-- Key relation of a Python stable descending sort by a rational key:
x may stand before y when the key of y is at most the key of x. -/
def descRel (key : α → ℚ) (x y : α) : Prop := key y ≤ key x

instance (key : α → ℚ) : DecidableRel (descRel key) := fun x y => by
  unfold descRel; infer_instance

instance (key : α → ℚ) : IsTotal α (descRel key) :=
  ⟨fun a b => (le_total (key b) (key a)).imp id id⟩

instance (key : α → ℚ) : IsTrans α (descRel key) :=
  ⟨fun _ _ _ h h2 => le_trans h2 h⟩

/-- Embedding of Python list.sort with a key and reverse set: a stable
sort placing larger keys first and keeping the original order of equal
keys. -/
def sortDescBy (key : α → ℚ) (l : List α) : List α :=
  l.insertionSort (descRel key)

/-- The result of sortDescBy is sorted by non-increasing key. -/
theorem sortDescBy_sorted (key : α → ℚ) (l : List α) :
    (sortDescBy key l).Sorted (descRel key) :=
  List.sorted_insertionSort (descRel key) l

/-- The result of sortDescBy is a permutation of the input. -/
theorem sortDescBy_perm (key : α → ℚ) (l : List α) :
    (sortDescBy key l).Perm l :=
  List.perm_insertionSort (descRel key) l

theorem filter_orderedInsert_pos (r : α → α → Prop) [DecidableRel r]
    (p : α → Bool) (b : α) (s : List α) (hb : p b = true)
    (h : ∀ e ∈ s, p e = true → r b e) :
    (s.orderedInsert r b).filter p = b :: s.filter p := by
  induction s with
  | nil => simp [List.orderedInsert, hb]
  | cons e t ih =>
    by_cases hr : r b e
    · simp [List.orderedInsert, hr, hb]
    · have hpe : p e = false := by
        by_contra hc
        exact hr (h e (List.mem_cons_self e t) (by simpa using hc))
      have ih2 := ih (fun x hx hpx => h x (List.mem_cons_of_mem e hx) hpx)
      simp [List.orderedInsert, hr, hpe, ih2]

theorem filter_orderedInsert_neg (r : α → α → Prop) [DecidableRel r]
    (p : α → Bool) (b : α) (s : List α) (hb : p b = false) :
    (s.orderedInsert r b).filter p = s.filter p := by
  induction s with
  | nil => simp [List.orderedInsert, hb]
  | cons e t ih =>
    by_cases hr : r b e
    · simp [List.orderedInsert, hr, hb]
    · cases hpe : p e <;> simp [List.orderedInsert, hr, hpe, ih]

/-- Stability of the embedded Python sort: the elements carrying any
fixed key value appear in the output in exactly their input order. -/
theorem sortDescBy_stable (key : α → ℚ) (l : List α) (c : ℚ) :
    (sortDescBy key l).filter (fun a => key a = c) =
      l.filter (fun a => key a = c) := by
  induction l with
  | nil => rfl
  | cons b t ih =>
    show ((List.insertionSort (descRel key) t).orderedInsert
        (descRel key) b).filter _ = _
    by_cases hb : key b = c
    · rw [filter_orderedInsert_pos (descRel key) _ b _ (by simp [hb])]
      · simpa [hb] using congrArg (List.cons b) ih
      · intro e _ hpe
        have : key e = c := by simpa using hpe
        simp [descRel, this, hb]
    · rw [filter_orderedInsert_neg (descRel key) _ b _ (by simp [hb])]
      simpa [hb] using ih

end StableSort

/-!  External collaborators.  encode is the sentence-transformer model
(out of the repository); sqrtQ stands for the real square root used by
the numpy norm; nameToRgb is webcolors.name_to_rgb; rgbToLab is the
colormath conversion to CIE Lab; deltaE is colormath delta_e_cie2000;
the two Boolean flags record whether the optional imports of
color_matcher.py succeeded. -/
structure Env where
  encode : String → Vec
  sqrtQ : ℚ → ℚ
  nameToRgb : String → Option (ℕ × ℕ × ℕ)
  rgbToLab : ℕ × ℕ × ℕ → Option (ℚ × ℚ × ℚ)
  deltaE : (ℚ × ℚ × ℚ) → (ℚ × ℚ × ℚ) → ℚ
  webcolorsOk : Bool
  colormathOk : Bool

/-- A square-root oracle behaves like the real square root at least in
that it vanishes only at zero on non-negative inputs. -/
def SqrtFaithful (sq : ℚ → ℚ) : Prop :=
  ∀ q : ℚ, 0 ≤ q → (sq q = 0 ↔ q = 0)

/-- Dot product of two vectors, as numpy dot over equal-length arrays. -/
def dot : Vec → Vec → ℚ
  | [], _ => 0
  | _, [] => 0
  | a :: as, b :: bs => a * b + dot as bs

/-- Squared euclidean norm; the numpy norm is its square root. -/
def sumSq (v : Vec) : ℚ := dot v v

/-- Embeds the helper cosine in reco/retriever.py lines 21 to 26; the
byte-identical copies in reco/selector.py lines 13 to 18 and
reco/intent.py lines 54 to 58 are the same function.  The denominator
is the product of the two norms; when it is zero the function returns
zero instead of dividing. -/
def cosineSim (env : Env) (a b : Vec) : ℚ :=
  let denom := env.sqrtQ (sumSq a) * env.sqrtQ (sumSq b)
  if denom = 0 then 0 else dot a b / denom

theorem sumSq_nonneg (v : Vec) : 0 ≤ sumSq v := by
  unfold sumSq
  induction v with
  | nil => simp [dot]
  | cons a as ih =>
    show 0 ≤ a * a + dot as as
    exact add_nonneg (mul_self_nonneg a) ih

theorem sumSq_eq_zero_iff (v : Vec) : sumSq v = 0 ↔ ∀ x ∈ v, x = 0 := by
  unfold sumSq
  induction v with
  | nil => simp [dot]
  | cons a as ih =>
    show a * a + dot as as = 0 ↔ _
    constructor
    · intro h
      have hd : 0 ≤ dot as as := sumSq_nonneg as
      have h1 : a * a = 0 ∧ dot as as = 0 := by
        constructor
        · nlinarith [mul_self_nonneg a, hd, h]
        · nlinarith [mul_self_nonneg a, hd, h]
      intro x hx
      rcases List.mem_cons.mp hx with rfl | hx2
      · exact mul_self_eq_zero.mp h1.1
      · exact ih.mp h1.2 x hx2
    · intro h
      have ha : a = 0 := h a (List.mem_cons_self a as)
      have : dot as as = 0 := ih.mpr fun x hx => h x (List.mem_cons_of_mem a hx)
      simp [ha, this]

/-- Weight table of reco/selector.py lines 37 to 46 with its default. -/
def biasFor (label : String) : ℚ :=
  if label = "business" then 0.05
  else if label = "formal" then 0.05
  else if label = "party" then 0.04
  else if label = "casual" then 0.03
  else if label = "workout" then 0.05
  else if label = "beach" then 0.06
  else if label = "hiking" then 0.02
  else 0.02

/-- The outfit-level total score actually computed by assemble_outfits,
reco/selector.py line 423: color harmony weighted 0.6, mean semantic
similarity weighted 0.4, plus the intent bias. -/
def selectorTotal (label : String) (cscore sem : ℚ) : ℚ :=
  0.6 * cscore + 0.4 * sem + biasFor label

/-- Modelled from the spec (section 4.4, outfit-level scoring): the
formula the specification prescribes for the same quantity, semantic
similarity weighted 0.6 and color harmony 0.4.  Kept for comparison
with selectorTotal, which embeds the source. -/
def selectorTotalSpec (label : String) (cscore sem : ℚ) : ℚ :=
  0.4 * cscore + 0.6 * sem + biasFor label

/-!  Data model.  DbItem embeds the SQLAlchemy model WardrobeItem of
app/models/wardrobe.py (id, type, color, image_url, category,
image_description, embedding, user_id; the cloudinary bookkeeping
column is never read by the embedded code and is omitted).  ItemDict
embeds the plain dictionary produced from it by the suggestions
endpoint. -/
structure DbItem where
  id : ℤ
  itemType : Option String
  color : Option String
  image_url : Option String
  category : Option String
  image_description : Option String
  embedding : Option Vec
  user_id : Option ℤ
deriving DecidableEq, Repr

/-- The item dictionary shuttled through the recommendation pipeline:
keys id, name, category, color, image_url, description, and optionally
a stored embedding.  Dictionaries built by the endpoint never carry
the embedding key (see modelToDict). -/
structure ItemDict where
  id : ℤ
  name : String
  category : Option String
  color : Option String
  image_url : Option String
  description : Option String
  embedding : Option Vec
deriving DecidableEq, Repr

/-- Embeds the function at routers/suggestions_v2.py lines 48 to 56: the
per-item dictionary handed to the selector.  Note that no embedding key
and no user id is included. -/
def modelToDict (it : DbItem) : ItemDict :=
  { id := it.id
    name := it.itemType.getD ""
    category := it.category
    color := it.color
    image_url := it.image_url
    description := it.image_description
    embedding := none }

/-- Lowercased category with empty default, the normalisation
(it.get category or empty).lower() used throughout the source. -/
def normCat (it : ItemDict) : String := lowerStr (it.category.getD "")

/-- The f-string name plus description text of an item (description None
renders as the word None), before any strip or lower. -/
def nameDesc (it : ItemDict) : String := it.name ++ " " ++ fmtNone it.description

/-- Stripped variant, used as input to the embedding model. -/
def nameDescStrip (it : ItemDict) : String := pyStrip (nameDesc it)

/-- Lowercased variant, used for token matching. -/
def nameDescLower (it : ItemDict) : String := lowerStr (nameDesc it)

/-!  Intent classifier, reco/intent.py. -/

/-- The fixed label set, reco/intent.py lines 11 to 13. -/
def intentLabels : List String :=
  ["business", "formal", "party", "casual", "workout", "beach", "hiking"]

/-- Seed descriptions per label, reco/intent.py lines 16 to 45. -/
def intentSeeds (label : String) : List String :=
  if label = "business" then
    ["office meeting outfit, smart shirt and trousers",
     "professional attire, blazer and chinos, leather shoes"]
  else if label = "formal" then
    ["black tie event, tuxedo, dress shirt, polished shoes",
     "wedding attire, suit and tie, dress shoes"]
  else if label = "party" then
    ["night out outfit, stylish blazer or shirt, chinos or dark jeans",
     "date night look, elegant top and tailored pants"]
  else if label = "casual" then
    ["everyday wear, t-shirt and jeans or chinos",
     "relaxed outfit for brunch or errands"]
  else if label = "workout" then
    ["gym clothing, shorts, breathable top, athletic shoes",
     "running or training gear, performance fabrics"]
  else if label = "beach" then
    ["hot weather, shorts, light shirt, sandals or slides",
     "seaside day, airy outfit, sun protection"]
  else
    ["outdoor trail, sturdy shoes, breathable layers",
     "active wear for walking long distances"]

/-- Arithmetic mean with the guard of the source: empty gives zero. -/
def meanOrZero (l : List ℚ) : ℚ :=
  if l = [] then 0 else l.sum / l.length

/-- Result of the zero-shot classifier, reco/intent.py lines 48 to 51. -/
structure Intent where
  label : String
  scores : List (String × ℚ)
deriving DecidableEq, Repr

/-- Embeds classify_intent_zero_shot, reco/intent.py lines 61 to 87:
mean cosine similarity of the query against the two seed texts of each
label, descending stable sort, best label first (the source falls back
to casual if the ranked list were empty, which cannot happen with the
fixed label table). -/
def classifyIntent (env : Env) (text : String) : Intent :=
  let qv := env.encode text
  let averaged := intentLabels.map fun l =>
    (l, meanOrZero ((intentSeeds l).map fun s => cosineSim env qv (env.encode s)))
  let ranked := sortDescBy Prod.snd averaged
  { label := (ranked.headD ("casual", 0)).1, scores := ranked }

/-!  Color matcher, reco/color_matcher.py. -/

/-- Value of a hexadecimal digit, lower or upper case. -/
def hexVal (c : Char) : Option ℕ :=
  if '0' ≤ c ∧ c ≤ '9' then some (c.toNat - '0'.toNat)
  else if 'a' ≤ c ∧ c ≤ 'f' then some (c.toNat - 'a'.toNat + 10)
  else if 'A' ≤ c ∧ c ≤ 'F' then some (c.toNat - 'A'.toNat + 10)
  else none

/-- Two-digit hexadecimal parse, int(s, 16) on a two character slice. -/
def hexByte (c1 c2 : Char) : Option ℕ := do
  let h ← hexVal c1
  let l ← hexVal c2
  pure (16 * h + l)

/-- Embeds the helper at color_matcher.py lines 21 to 36: webcolors name
lookup first, then the naive RRGGBB parse for strings of length seven
starting with the hash sign. -/
def toRgb (env : Env) (colorName : String) : Option (ℕ × ℕ × ℕ) :=
  if ¬env.webcolorsOk then none
  else match env.nameToRgb colorName with
  | some rgb => some rgb
  | none =>
    match colorName.toList with
    | ['#', a, b, c, d, e, f] => do
      let r ← hexByte a b
      let g ← hexByte c d
      let bl ← hexByte e f
      pure (r, g, bl)
    | _ => none

/-- An outfit under construction: the insertion-ordered dictionary from
slot name to chosen item. -/
abbrev OutfitD := List (String × ItemDict)

/-- First-match association lookup, Python dictionary read. -/
def lookupA {β : Type} (m : List (String × β)) (k : String) : Option β :=
  match m with
  | [] => none
  | (k2, v) :: t => if k2 = k then some v else lookupA t k

/-- Embeds infer_palette, color_matcher.py lines 46 to 53: slot to
lowercased color for the items that carry a color string. -/
def inferPalette (o : OutfitD) : List (String × String) :=
  o.filterMap fun p =>
    match p.2.color with
    | some c => some (p.1, lowerStr c)
    | none => none

/-- All unordered pairs of a list in source order, the double loop of
palette_score. -/
def pairsOf {β : Type} : List β → List (β × β)
  | [] => []
  | x :: t => (t.map fun y => (x, y)) ++ pairsOf t

/-- Embeds palette_score, color_matcher.py lines 56 to 94: neutral 0.5
for an empty palette or missing libraries, 0.6 when fewer than two
colors resolve to Lab, else the normalised mean CIEDE2000 distance. -/
def paletteScore (env : Env) (palette : List (String × String)) : ℚ :=
  if palette = [] then 0.5
  else if ¬(env.colormathOk ∧ env.webcolorsOk) then 0.5
  else
    let labs := palette.filterMap fun p =>
      (toRgb env p.2).bind fun rgb => (env.rgbToLab rgb).map fun lab => (p.1, lab)
    if labs.length < 2 then 0.6
    else
      let dists := (pairsOf labs).map fun q => env.deltaE q.1.2 q.2.2
      if dists = [] then 0.6
      else
        let avg := dists.sum / dists.length
        let score := max 0 (min 1 (1 - avg / 100))
        0.4 + 0.6 * score

/-!  Rule-based selector, reco/selector.py. -/

/-- Per-slot prefer and avoid token lists, the INTENT_RULES table of
reco/selector.py lines 63 to 106; first component prefer, second
avoid.  Absent entries give two empty lists, as dict.get with a
default does. -/
def intentRules (label cat : String) : List String × List String :=
  if label = "business" then
    if cat = "top" then (["shirt", "button-down", "shirt", "polo"], ["t-shirt", "hoodie", "tee"])
    else if cat = "bottom" then
      (["chino", "dress pant", "suit pant", "trouser", "pant"],
       ["short", "shorts", "jogger", "fleece", "sweatpant"])
    else if cat = "footwear" then
      (["loafer", "boot", "dress"],
       ["sneaker", "sneakers", "slide", "sandal", "nike", "adidas", "athletic", "running", "trainer"])
    else if cat = "layer" then (["blazer"], ["hoodie"])
    else ([], [])
  else if label = "formal" then
    if cat = "top" then (["dress shirt"], ["t-shirt", "hoodie", "tee"])
    else if cat = "bottom" then
      (["suit pant", "dress pant", "trouser"],
       ["jean", "short", "shorts", "jogger", "fleece", "sweatpant"])
    else if cat = "footwear" then
      (["dress", "loafer"],
       ["sneaker", "sneakers", "slide", "sandal", "nike", "adidas", "athletic", "running", "trainer"])
    else if cat = "layer" then (["blazer"], ["hoodie"])
    else ([], [])
  else if label = "workout" then
    if cat = "top" then (["t-shirt", "tank"], ["dress shirt"])
    else if cat = "bottom" then (["short"], ["jean", "chino", "dress pant"])
    else if cat = "footwear" then (["sneaker"], ["loafer", "boot", "dress shoe"])
    else if cat = "layer" then (["hoodie"], ["blazer"])
    else ([], [])
  else if label = "beach" then
    if cat = "top" then (["t-shirt"], ["dress shirt"])
    else if cat = "bottom" then (["short"], ["jean", "chino"])
    else if cat = "footwear" then
      (["sandal", "slide", "flip", "flip-flop"],
       ["loafer", "dress", "dress shoe", "lace up", "lace-up", "oxford", "derby", "formal",
        "sneaker", "nike", "adidas", "boot", "heel"])
    else if cat = "layer" then
      (["light", "windbreaker", "cover-up"],
       ["blazer", "sweater", "suede", "heavy", "winter", "wool", "fleece", "racer"])
    else ([], [])
  else if label = "party" then
    if cat = "top" then (["dress shirt", "button-down"], [])
    else if cat = "bottom" then (["chino", "suit pant", "dark jean"], [])
    else if cat = "footwear" then (["loafer", "boot", "sneaker"], ["slide", "sandal"])
    else if cat = "layer" then (["blazer"], [])
    else ([], [])
  else if label = "casual" then
    if cat = "top" then (["t-shirt", "polo", "sweater"], [])
    else if cat = "bottom" then (["jean", "chino"], [])
    else if cat = "footwear" then (["sneaker", "boot"], [])
    else if cat = "layer" then (["hoodie", "jacket", "cardigan"], [])
    else ([], [])
  else if label = "hiking" then
    if cat = "footwear" then (["boot", "hiking"], ["loafer", "dress", "slide", "sandal", "sneaker", "nike", "adidas"])
    else if cat = "bottom" then (["pant"], ["short"])
    else if cat = "layer" then (["jacket"], ["blazer"])
    else if cat = "top" then (["t-shirt"], ["dress shirt"])
    else ([], [])
  else ([], [])

/-- Whether the label is in the INTENT_RULES table at all, the Python
test label in INTENT_RULES. -/
def labelInRules (label : String) : Bool :=
  label = "business" ∨ label = "formal" ∨ label = "workout" ∨ label = "beach" ∨
    label = "party" ∨ label = "casual" ∨ label = "hiking"

/-- Embeds _apply_intent_bias, reco/selector.py lines 109 to 140: bonus
for a prefer token, penalty for an avoid token, with larger constants
for strict intents. -/
def applyIntentBias (label cat txt : String) (base : ℚ) : ℚ :=
  let rules := intentRules label cat
  let prefer := rules.1
  let avoid := rules.2
  let bonus1 : ℚ :=
    if prefer ≠ [] ∧ prefer.any (fun t => pyIn t txt) then
      (if label = "business" ∨ label = "formal" then 0.18 else 0.12) else 0
  let bonus2 : ℚ :=
    if avoid ≠ [] ∧ avoid.any (fun t => pyIn t txt) then
      (if label = "business" ∨ label = "formal" ∨ label = "beach" then 0.35 else 0.15) else 0
  base + bonus1 - bonus2

/-- The vector used for an item inside assemble_outfits, selector.py
lines 196 to 222: a stored embedding list when present and non-empty
(an empty stored list is falsy in Python and is recomputed), otherwise
an Embedder call on the stripped name plus description text. -/
def itemVec (env : Env) (it : ItemDict) : Vec :=
  match it.embedding with
  | some v => if v = [] then env.encode (nameDescStrip it) else v
  | none => env.encode (nameDescStrip it)

/-- Per-item score inside a category pool, selector.py lines 223 to 228:
query similarity weighted 0.6, intent-label similarity 0.4, then the
intent bias on the lowercased text. -/
def scoreItem (env : Env) (qv labelVec : Vec) (label cat : String) (it : ItemDict) : ℚ :=
  let v := itemVec env it
  let s1 := cosineSim env qv v
  let s2 := cosineSim env labelVec v
  applyIntentBias label cat (nameDescLower it) (0.6 * s1 + 0.4 * s2)

/-- Append an item to the pool of its category, creating the category
at the end on first sight: dict setdefault plus append. -/
def addToPool (m : List (String × List ItemDict)) (c : String) (it : ItemDict) :
    List (String × List ItemDict) :=
  match m with
  | [] => [(c, [it])]
  | (k, items) :: t =>
    if k = c then (k, items ++ [it]) :: t else (k, items) :: addToPool t c it

/-- Embeds the pool construction of selector.py lines 156 to 161 (and
the identical by_cat loop of the endpoint fallback): group by
lowercased category, skipping items whose category normalises to the
empty string. -/
def buildPools (w : List ItemDict) : List (String × List ItemDict) :=
  w.foldl (fun m it => let c := normCat it; if c = "" then m else addToPool m c it) []

/-- Scored, descending-sorted, top-eight pool of one category,
selector.py lines 188 to 230. -/
def scoredPool (env : Env) (qv labelVec : Vec) (label cat : String)
    (items : List ItemDict) : List (ItemDict × ℚ) :=
  (sortDescBy Prod.snd (items.map fun it => (it, scoreItem env qv labelVec label cat it))).take 8

/-- Lowercased searchable text of a scored pool entry. -/
def itemText (p : ItemDict × ℚ) : String := nameDescLower p.1

/-- Whether any of the tokens occurs in the entry text. -/
def hasToken (tokens : List String) (p : ItemDict × ℚ) : Bool :=
  tokens.any fun t => pyIn t (itemText p)

/-- The HARD_AVOID token list of the business and formal hard filter,
selector.py line 234.  Note that, unlike the per-slot business avoid
lists of INTENT_RULES, it contains neither slide nor sandal. -/
def hardAvoidList : List String :=
  ["t-shirt", "tee", "short", "shorts", "hoodie", "sneaker", "sneakers", "athletic",
   "jogger", "fleece", "sweatpant", "nike", "adidas", "trainer", "running"]

/-- The HARD_PREFER token list of the same filter, selector.py line 235. -/
def hardPreferList : List String :=
  ["dress shirt", "button-down", "shirt", "polo", "chino", "dress pant", "suit pant",
   "trouser", "pant", "blazer", "loafer", "boot", "dress shoe"]

/-- Embeds the business and formal hard filter body for one category,
selector.py lines 236 to 254: drop avoided entries unless that would
empty the pool, float preferred entries, float blazers in the layer
pool, keep at most five. -/
def bizFilterPairs (cat : String) (pairs : List (ItemDict × ℚ)) : List (ItemDict × ℚ) :=
  let filtered := pairs.filter fun p => !hasToken hardAvoidList p
  let preferred := filtered.filter fun p => hasToken hardPreferList p
  let pairs1 :=
    if preferred ≠ [] then preferred ++ filtered.filter (fun x => decide (x ∉ preferred))
    else if filtered ≠ [] then filtered
    else pairs
  let pairs2 :=
    if cat = "layer" then
      let blazers := pairs1.filter fun p => pyIn "blazer" (itemText p)
      if blazers ≠ [] then blazers ++ pairs1.filter (fun x => decide (x ∉ blazers))
      else pairs1
    else pairs1
  pairs2.take 5

/-- Footwear avoid tokens of the first beach hard filter, line 258. -/
def beachAvoidFootwear : List String :=
  ["dress shoe", "dress", "lace up", "lace-up", "oxford", "derby", "formal", "heel",
   "boot", "loafer", "dress boot"]

/-- Layer avoid tokens of the first beach hard filter, line 259. -/
def beachAvoidLayer : List String :=
  ["suede", "wool", "heavy", "winter", "fleece", "racer jacket", "blazer", "sweater",
   "cardigan", "coat"]

/-- Footwear prefer tokens of the beach filters, lines 260 and 301. -/
def beachPreferFootwear : List String := ["sandal", "slide", "flip", "flip-flop", "beach"]

/-- Embeds the first beach hard filter body for one category, selector.py
lines 261 to 276. -/
def beachFilterPairs (cat : String) (pairs : List (ItemDict × ℚ)) : List (ItemDict × ℚ) :=
  if cat = "footwear" then
    let filtered := pairs.filter fun p => !hasToken beachAvoidFootwear p
    let preferred := filtered.filter fun p => hasToken beachPreferFootwear p
    let pairs1 :=
      if preferred ≠ [] then preferred ++ filtered.filter (fun x => decide (x ∉ preferred))
      else if filtered ≠ [] then filtered
      else pairs
    pairs1.take 5
  else if cat = "layer" then
    let filtered := pairs.filter fun p => !hasToken beachAvoidLayer p
    if filtered ≠ [] then filtered.take 5 else pairs
  else pairs

/-- Embeds the party night demotion for one category, selector.py lines
279 to 290: drop shorts from the bottom pool and hoodies from the
layer pool when alternatives remain. -/
def partyNightPairs (cat : String) (pairs : List (ItemDict × ℚ)) : List (ItemDict × ℚ) :=
  if cat = "bottom" then
    if pairs ≠ [] then
      let nonShorts := pairs.filter fun p => !pyIn "short" (itemText p)
      if nonShorts ≠ [] then nonShorts.take 5 else pairs
    else pairs
  else if cat = "layer" then
    if pairs ≠ [] then
      let nonHoodie := pairs.filter fun p => !pyIn "hoodie" (itemText p)
      if nonHoodie ≠ [] then nonHoodie.take 5 else pairs
    else pairs
  else pairs

/-- Formal keywords of the second beach footwear pass, line 297. -/
def beachFormalKeywords : List String :=
  ["dress shoe", "dress", "lace up", "lace-up", "oxford", "derby", "formal", "heel",
   "boot", "loafer"]

/-- Sneaker keywords of the second beach footwear pass, line 307. -/
def beachSneakerKeywords : List String :=
  ["sneaker", "nike", "adidas", "athletic", "running", "trainer"]

/-- Embeds the second beach pass for one category, selector.py lines 293
to 310.  The formal-keyword filter here has no emptiness guard: it can
leave the footwear pool empty. -/
def beachSecondPairs (cat : String) (pairs : List (ItemDict × ℚ)) : List (ItemDict × ℚ) :=
  if cat = "footwear" then
    if pairs ≠ [] then
      let pairs1 := pairs.filter fun p => !hasToken beachFormalKeywords p
      let sandals := pairs1.filter fun p => hasToken beachPreferFootwear p
      let pairs2 :=
        if sandals ≠ [] then sandals ++ pairs1.filter (fun x => decide (x ∉ sandals))
        else pairs1
      let pairs3 :=
        if sandals ≠ [] then
          let nonSneakers := pairs2.filter fun p => !hasToken beachSneakerKeywords p
          if nonSneakers ≠ [] then nonSneakers else pairs2
        else pairs2
      pairs3.take 5
    else pairs
  else pairs

/-- Embeds the hiking adjustments for one category, selector.py lines 313
to 325: drop shorts when the query mentions cool weather, float boots
in the footwear pool. -/
def hikingPairs (ql : String) (cat : String) (pairs : List (ItemDict × ℚ)) :
    List (ItemDict × ℚ) :=
  if cat = "bottom" then
    if (["cool", "cold", "chilly"].any fun t => pyIn t ql) then
      if pairs ≠ [] then
        let nonShorts := pairs.filter fun p => !pyIn "short" (itemText p)
        if nonShorts ≠ [] then nonShorts.take 5 else pairs
      else pairs
    else pairs
  else if cat = "footwear" then
    if pairs ≠ [] then
      let boots := pairs.filter fun p => hasToken ["boot", "hiking"] p
      if boots ≠ [] then (boots ++ pairs.filter (fun x => decide (x ∉ boots))).take 5
      else pairs
    else pairs
  else pairs

/-- The scored top-eight per-category pools before any hard filter,
selector.py lines 182 to 230. -/
def selectorCatBest (env : Env) (query : String) (wardrobe : List ItemDict)
    (label : String) : List (String × List (ItemDict × ℚ)) :=
  let qv := env.encode query
  let labelVec := env.encode label
  (buildPools wardrobe).map fun p => (p.1, scoredPool env qv labelVec label p.1 p.2)

/-- The pools after all five conditional filter passes, selector.py lines
232 to 325. -/
def selectorCatBestFiltered (env : Env) (query : String) (wardrobe : List ItemDict)
    (label : String) : List (String × List (ItemDict × ℚ)) :=
  let catBest0 := selectorCatBest env query wardrobe label
  let catBest1 :=
    if label = "business" ∨ label = "formal" then
      catBest0.map fun p => (p.1, bizFilterPairs p.1 p.2)
    else catBest0
  let catBest2 :=
    if label = "beach" then catBest1.map fun p => (p.1, beachFilterPairs p.1 p.2)
    else catBest1
  let ql := lowerStr query
  let catBest3 :=
    if label = "party" ∧ (pyIn "night" ql ∨ pyIn "evening" ql) then
      catBest2.map fun p => (p.1, partyNightPairs p.1 p.2)
    else catBest2
  let catBest4 :=
    if label = "beach" then catBest3.map fun p => (p.1, beachSecondPairs p.1 p.2)
    else catBest3
  if label = "hiking" then catBest4.map fun p => (p.1, hikingPairs ql p.1 p.2)
  else catBest4

/-- Recursion of the required-slot walk of selector.py lines 337 to 343:
stop at the first empty pool, otherwise take position min i of pool
size minus one. -/
def buildReq (catBest : List (String × List (ItemDict × ℚ))) (i : ℕ) :
    List String → OutfitD
  | [] => []
  | c :: cs =>
    match (lookupA catBest c).getD [] with
    | [] => []
    | p :: ps => (c, ((p :: ps).getD (min i ps.length) p).1) :: buildReq catBest i cs

/-- Builds the required part of greedy candidate number i, selector.py
lines 337 to 343, walking top, bottom, footwear in order. -/
def buildRequired (catBest : List (String × List (ItemDict × ℚ))) (i : ℕ) : OutfitD :=
  buildReq catBest i ["top", "bottom", "footwear"]

/-- One step of the optional-slot loop of selector.py lines 345 to 360:
append the head of the pool, except that for the layer slot of a
labelled intent the first pool entry matching a layer prefer token
wins. -/
def addOpt (catBest : List (String × List (ItemDict × ℚ))) (label : String)
    (c : OutfitD) (opt : String) : OutfitD :=
  match (lookupA catBest opt).getD [] with
  | [] => c
  | p :: ps =>
    if opt = "layer" ∧ labelInRules label ∧ (intentRules label "layer").1 ≠ [] then
      let chosen := ((p :: ps).find? fun q =>
        (intentRules label "layer").1.any fun t => pyIn t (nameDescLower q.1))
      c ++ [(opt, ((chosen.map Prod.fst).getD p.1))]
    else c ++ [(opt, p.1)]

/-- Adds the optional layer and accessories slots, selector.py lines 345
to 360. -/
def addOptional (catBest : List (String × List (ItemDict × ℚ))) (label : String)
    (cand : OutfitD) : OutfitD :=
  ["layer", "accessories"].foldl (addOpt catBest label) cand

/-- One iteration of the greedy walk: skip once the done flag is set,
otherwise build candidate number i, keep it when it fills at least
three slots, and set the done flag once k outfits are collected. -/
def greedyStep (catBest : List (String × List (ItemDict × ℚ))) (label : String)
    (k : ℕ) (st : List OutfitD × Bool) (i : ℕ) : List OutfitD × Bool :=
  if st.2 then st
  else
    let cand := addOptional catBest label (buildRequired catBest i)
    let acc := if 3 ≤ cand.length then st.1 ++ [cand] else st.1
    (acc, decide (k ≤ acc.length))

/-- The bounded greedy walk of selector.py lines 333 to 365: up to ten
candidates, kept when they fill at least three slots, stopping as soon
as k outfits are collected. -/
def greedyOutfits (catBest : List (String × List (ItemDict × ℚ))) (label : String)
    (k : ℕ) : List OutfitD :=
  ((List.range 10).foldl (greedyStep catBest label k) ([], false)).1

/-- Outfit-level score, selector.py lines 383 to 424: palette harmony
and mean clamped semantic similarity combined by selectorTotal. -/
def scoreOutfit (env : Env) (qv : Vec) (label : String) (o : OutfitD) : ℚ :=
  let cscore := paletteScore env (inferPalette o)
  let sims := o.map fun p => max 0 (cosineSim env qv (itemVec env p.2))
  let sem := if sims = [] then 0.5 else sims.sum / sims.length
  selectorTotal label cscore sem

/-- Embeds assemble_outfits, selector.py lines 143 to 429 end to end:
pool construction and scoring, the five filter passes, the required
category check, the greedy assembly, outfit scoring and the final
descending sort truncated to min k 3. -/
def assembleOutfits (env : Env) (query : String) (wardrobe : List ItemDict)
    (label : String) (k : ℕ) : List OutfitD :=
  let catBest := selectorCatBestFiltered env query wardrobe label
  if ["top", "bottom", "footwear"].all fun r => (lookupA catBest r).isSome then
    let outfits := greedyOutfits catBest label k
    let qv := env.encode query
    let scored := outfits.map fun o => (o, scoreOutfit env qv label o)
    ((sortDescBy Prod.snd scored).take (min k 3)).map Prod.fst
  else []

/-!  Retriever, reco/retriever.py. -/

/-- Per-item hybrid score of the retriever, retriever.py lines 183 to
193: seventy percent query similarity plus thirty percent intent
similarity when an intent vector is available. -/
def retrieverItemScore (env : Env) (queryVec : Vec) (intentVec : Option Vec)
    (itemEmb : Vec) : ℚ :=
  match intentVec with
  | some iv => 0.7 * cosineSim env queryVec itemEmb + 0.3 * cosineSim env iv itemEmb
  | none => cosineSim env queryVec itemEmb

/-- Embeds the per-category ranking step of retrieve_relevant_items,
retriever.py lines 207 to 213: sort the scored items of one category by
descending score with the stable Python sort and keep the first
limit_per_category of them. -/
def retrieverRank (scored : List (DbItem × ℚ)) (limitPerCategory : ℕ) : List DbItem :=
  ((sortDescBy Prod.snd scored).take limitPerCategory).map Prod.fst

/-!  LLM delegate, utils/gemini_suggest.py. -/

/-- One outfit object of the parsed model response.  A slot field is
none when the key is absent or its value is falsy (null or an empty
object); some oid records a truthy object whose id lookup gave oid. -/
structure GJsonOutfit where
  top : Option (Option ℤ)
  bottom : Option (Option ℤ)
  footwear : Option (Option ℤ)
  layer : Option (Option ℤ)
  accessories : Option (Option ℤ)
  rationale : Option String
deriving DecidableEq, Repr

/-- Slot access by category name. -/
def gSlot (g : GJsonOutfit) (c : String) : Option (Option ℤ) :=
  if c = "top" then g.top
  else if c = "bottom" then g.bottom
  else if c = "footwear" then g.footwear
  else if c = "layer" then g.layer
  else if c = "accessories" then g.accessories
  else none

/-- The parsed JSON body of a model response; outfits is none when the
outfits key is absent or not a list. -/
structure GJson where
  intent : Option String
  itemType : Option String
  outfits : Option (List GJsonOutfit)
  rationale : Option String
deriving DecidableEq, Repr

/-- One validated outfit of the delegate: chosen wardrobe items by slot
in insertion order plus the attached rationale. -/
structure GOutfit where
  slots : OutfitD
  rationale : String
deriving DecidableEq, Repr

/-- The dictionary returned by suggest_outfit_with_gemini on success,
gemini_suggest.py lines 202 to 208: exactly the keys intent, item_type
and outfits, in that insertion order. -/
structure GemRet where
  intent : Option String
  itemType : Option String
  outfits : List GOutfit
deriving DecidableEq, Repr

/-- Python dict comprehension keyed by item id: the last occurrence of
an id wins. -/
def lookupId (w : List ItemDict) (i : ℤ) : Option ItemDict :=
  w.foldl (fun acc it => if it.id = i then some it else acc) none

/-- Default rationale synthesized by the delegate, line 196. -/
def genericRationale : String :=
  "This outfit was selected based on your request and wardrobe items."

/-- Embeds the validation tail of suggest_outfit_with_gemini, lines 164
to 211: keep only referenced ids that exist in the wardrobe, attach the
per-outfit rationale or the top-level one or a generic fallback, keep
outfits that fill the three required slots, give up when none remain. -/
def validateGemini (w : List ItemDict) (limit : ℕ) (g : GJson) : Option GemRet :=
  match g.outfits with
  | none => none
  | some outs =>
    if outs = [] then none
    else
      let validated := (outs.take limit).filterMap fun od =>
        let slots := ["top", "bottom", "footwear", "layer", "accessories"].foldl
          (fun acc c =>
            match gSlot od c with
            | some (some i) =>
              if i ≠ 0 then
                match lookupId w i with
                | some it => acc ++ [(c, it)]
                | none => acc
              else acc
            | _ => acc)
          []
        let rat :=
          match strOr od.rationale g.rationale with
          | some s => if s ≠ "" then s else genericRationale
          | none => genericRationale
        if ["top", "bottom", "footwear"].all (fun c => (lookupA slots c).isSome) then
          some { slots := slots, rationale := rat }
        else none
      if validated ≠ [] then
        some { intent := g.intent, itemType := g.itemType, outfits := validated }
      else none

/-- Outcome of the single HTTP request the delegate makes: a timeout, a
transport error, a generic request error, or a response with a status
code and (for status 200) the body parsed down to GJson, none standing
for any of the body extraction failures of lines 147 to 162. -/
inductive HttpOutcome where
  | timeout
  | connError
  | reqError
  | resp (status : ℕ) (body : Option GJson)
deriving DecidableEq

/-- Embeds the call semantics of suggest_outfit_with_gemini, lines 34 to
215, against an oracle assigning an outcome to every attempt the
function might make.  Returns the result together with the number of
HTTP attempts performed.  The source performs exactly one requests.post
(lines 112 to 131); a missing or blank key returns before any request;
a timeout, transport error, request error or non-200 status returns a
null result with no further attempt (lines 132 to 144). -/
def suggestGemini (key : Option String) (outcomes : ℕ → HttpOutcome)
    (wardrobe : List ItemDict) (limit : ℕ) : Option GemRet × ℕ :=
  let k := key.map pyStrip
  if ¬ strTruthy k then (none, 0)
  else
    match outcomes 0 with
    | .timeout => (none, 1)
    | .connError => (none, 1)
    | .reqError => (none, 1)
    | .resp st body =>
      if st ≠ 200 then (none, 1)
      else (body.bind fun g => validateGemini wardrobe limit g, 1)

/-!  Suggestion endpoint, routers/suggestions_v2.py. -/

/-- Request body of POST v2/suggestions, lines 20 to 22. -/
structure V2Req where
  text : String
  limit : Option ℤ
deriving DecidableEq, Repr

/-- Response item shape, lines 25 to 30. -/
structure V2Item where
  id : ℤ
  name : String
  category : String
  color : Option String
  image_url : Option String
deriving DecidableEq, Repr

/-- Response outfit shape, lines 33 to 40. -/
structure V2Outfit where
  top : Option V2Item
  bottom : Option V2Item
  footwear : Option V2Item
  outerwear : Option V2Item
  accessories : Option V2Item
  score : ℚ
  rationale : String
deriving DecidableEq, Repr

/-- Response shape, lines 43 to 45. -/
structure V2Resp where
  intent : String
  outfits : List V2Outfit
deriving DecidableEq, Repr

/-- Embeds to_v2item, lines 147 to 154. -/
def toV2Item (d : ItemDict) : V2Item :=
  { id := d.id
    name := d.name
    category := d.category.getD ""
    color := d.color
    image_url := d.image_url }

/-- Embeds pick_any, lines 108 to 118: first candidate whose lowercased
name plus description contains a hint, else the first candidate. -/
def pickAny (candidates : List ItemDict) (hints : List String) : Option ItemDict :=
  match candidates with
  | [] => none
  | c :: cs =>
    if hints ≠ [] then
      let hl := hints.map lowerStr
      match (c :: cs).find? (fun it =>
        let tl := lowerStr (it.name ++ " " ++ it.description.getD "")
        hl.any fun h => pyIn h tl) with
      | some it => some it
      | none => some c
    else some c

/-- Embeds the simple outfit construction of the endpoint fallback,
lines 100 to 137: one pick per category with type hints, assembled in
the fixed key order. -/
def buildFallback (wardrobe : List ItemDict) : OutfitD :=
  let byCat := buildPools wardrobe
  let top := pickAny ((lookupA byCat "top").getD [])
    ["shirt", "t-shirt", "polo", "blouse", "sweater"]
  let bottom := pickAny ((lookupA byCat "bottom").getD [])
    ["jeans", "pants", "chinos", "skirt", "shorts"]
  let footPool := (lookupA byCat "footwear").getD []
  let shoesPool := if footPool ≠ [] then footPool else (lookupA byCat "shoes").getD []
  let footwear := pickAny shoesPool ["sneaker", "boot", "loafer", "shoe", "sandal"]
  let layer := pickAny ((lookupA byCat "layer").getD [])
    ["jacket", "blazer", "hoodie", "sweater", "cardigan"]
  let accessories := pickAny ((lookupA byCat "accessories").getD []) []
  (match top with | some t => [("top", t)] | none => []) ++
  (match bottom with | some t => [("bottom", t)] | none => []) ++
  (match footwear with | some t => [("footwear", t)] | none => []) ++
  (match layer with | some t => [("layer", t)] | none => []) ++
  (match accessories with | some t => [("accessories", t)] | none => [])

/-- Embeds the emission decision of the fallback, lines 139 to 145: emit
the simple outfit when at least two required slots are present, and as
a last resort whenever it is non-empty. -/
def fallbackOutfits (wardrobe : List ItemDict) : List OutfitD :=
  let fb := buildFallback wardrobe
  let requiredPresent :=
    (["top", "bottom", "footwear"].filter fun c => (lookupA fb c).isSome).length
  if 2 ≤ requiredPresent then [fb]
  else if fb ≠ [] then [fb]
  else []

/-- An element produced by iterating the value bound to outfits_raw in
the endpoint loop at line 260.  When the rule engine or the fallback
produced a list, the elements are outfit dictionaries; when the Gemini
delegate succeeded, outfits_raw is the dictionary returned by the
delegate and Python iteration yields its keys, which are strings. -/
inductive PyElem where
  | pstr (s : String)
  | pdict (o : OutfitD)
deriving DecidableEq

/-- The value bound to outfits_raw. -/
inductive RawOutfits where
  | rlist (l : List OutfitD)
  | rgem (g : GemRet)
deriving DecidableEq

/-- Python truthiness of outfits_raw: an empty list is falsy, the
delegate dictionary always holds its three keys and is truthy. -/
def rawTruthy : RawOutfits → Bool
  | .rlist l => l ≠ []
  | .rgem _ => true

/-- Iteration over outfits_raw: list elements, or the three dictionary
keys in insertion order. -/
def rawElems : RawOutfits → List PyElem
  | .rlist l => l.map .pdict
  | .rgem _ => [.pstr "intent", .pstr "item_type", .pstr "outfits"]

/-- The Python test cat in o on a loop element: key lookup on an outfit
dictionary, substring test on a string. -/
def pyHas : PyElem → String → Bool
  | .pstr s, cat => pyIn cat s
  | .pdict d, cat => (lookupA d cat).isSome

/-- The Python read o of cat on a loop element.  Indexing a string with
a string key raises a TypeError in the source; that path is unreachable
for the three keys the delegate dictionary has (none contains a slot
name as a substring), and is modelled as none. -/
def pyGet : PyElem → String → Option ItemDict
  | .pstr _, _ => none
  | .pdict d, cat => lookupA d cat

/-- The guard cat in o and o of cat used throughout score_outfit; item
dictionary values are non-empty dictionaries and hence truthy. -/
def pyPresent (o : PyElem) (cat : String) : Bool :=
  pyHas o cat && (pyGet o cat).isSome

/-- Embeds score_outfit, lines 157 to 257: completeness over the three
required slots, either the semantic plus color blend (rule path) or
the fixed confidence formula (Gemini path), and the assembled
rationale text.  The joined order of the missing-slot set, which
Python leaves to hash order, is fixed here as top, bottom, footwear;
no theorem depends on the rationale text.  Returns the score already
scaled to percent, with the rationale. -/
def endpointScoreOutfit (env : Env) (usedGemini : Bool) (o : PyElem)
    (query intentLabel : String) : ℚ × String :=
  let requiredCats := ["top", "bottom", "footwear"]
  let presentCats := requiredCats.filter fun c => pyPresent o c
  let completeness : ℚ := (presentCats.length : ℚ) / 3
  let totalScore :=
    if ¬usedGemini then
      let qv := env.encode query
      let itemTexts :=
        (["top", "bottom", "footwear", "layer", "accessories"].filter fun c =>
          pyPresent o c).map fun c =>
            match pyGet o c with
            | some d => nameDescStrip d
            | none => ""
      let semantic :=
        if itemTexts ≠ [] then
          let sims := itemTexts.map fun t => max 0 (cosineSim env qv (env.encode t))
          if sims = [] then 0.5 else sims.sum / sims.length
        else 0.5
      let palette := inferPalette (match o with | .pdict d => d | .pstr _ => [])
      let colorScore := paletteScore env palette
      0.4 * completeness + 0.4 * semantic + 0.2 * colorScore
    else 0.95 * completeness + 0.05
  let part1 : List String :=
    if intentLabel = "business" then
      ["This professional outfit is perfect for business settings."]
    else if intentLabel = "formal" then
      ["This sophisticated ensemble is ideal for formal occasions."]
    else if intentLabel = "party" then
      ["This stylish combination works great for social gatherings."]
    else if intentLabel = "casual" then
      ["This relaxed outfit is perfect for casual occasions."]
    else if intentLabel = "workout" then
      ["This athletic outfit is designed for active wear."]
    else if intentLabel = "beach" then
      ["This lightweight outfit is perfect for beach activities."]
    else if intentLabel = "hiking" then
      ["This practical outfit is ideal for outdoor activities."]
    else []
  let mentioned := (requiredCats.filter fun c => pyPresent o c).map fun c =>
    match pyGet o c with
    | some d => d.name
    | none => c
  let part2 : List String :=
    if mentioned ≠ [] then
      ["Selected " ++ String.intercalate ", " (mentioned.take 3) ++ " based on your query."]
    else []
  let part3 : List String :=
    if completeness < 1 then
      let missing := requiredCats.filter fun c => ¬pyPresent o c
      if missing ≠ [] then
        ["Note: Missing " ++ String.intercalate ", " missing ++ " from your wardrobe."]
      else []
    else []
  let part4 : List String :=
    if 0.9 ≤ totalScore then ["This is an excellent match for your request!"]
    else if 0.7 ≤ totalScore then ["This outfit works well for your needs."]
    else ["This is the best available match from your wardrobe."]
  let parts := part1 ++ part2 ++ part3 ++ part4
  let rationale :=
    if parts ≠ [] then String.intercalate " " parts
    else "Selected outfit based on your request."
  (totalScore * 100, rationale)

/-- Embeds the response-outfit construction of the endpoint loop, lines
259 to 272. -/
def buildV2Outfit (env : Env) (usedGemini : Bool) (o : PyElem)
    (query intentLabel : String) : V2Outfit :=
  let sr := endpointScoreOutfit env usedGemini o query intentLabel
  { top := if pyHas o "top" then (pyGet o "top").map toV2Item else none
    bottom := if pyHas o "bottom" then (pyGet o "bottom").map toV2Item else none
    footwear := if pyHas o "footwear" then (pyGet o "footwear").map toV2Item else none
    outerwear := if pyHas o "layer" then (pyGet o "layer").map toV2Item else none
    accessories := if pyHas o "accessories" then (pyGet o "accessories").map toV2Item else none
    score := sr.1
    rationale := sr.2 }

/-- The candidate catalog the endpoint works from, lines 71 to 73: the
whole wardrobe_items table mapped through modelToDict.  No filter of
any kind, in particular none on user_id, is applied. -/
def suggestV2Wardrobe (db : List DbItem) : List ItemDict :=
  db.map modelToDict

/-- Embeds the endpoint handler suggest_v2, routers/suggestions_v2.py
lines 59 to 278: empty text is a 400, the intent is classified, the
whole item table is loaded, the Gemini delegate is attempted when a key
is configured, the rule engine and then the simple fallback fill in,
and the scored outfits are sorted descending and truncated to three.
The declared request field limit is never read by the handler. -/
def suggestV2 (env : Env) (db : List DbItem) (geminiKey : Option String)
    (outcomes : ℕ → HttpOutcome) (req : V2Req) : Except ℕ V2Resp :=
  let text := pyStrip req.text
  if text = "" then .error 400
  else
    let intent := classifyIntent env text
    let wardrobe := suggestV2Wardrobe db
    if wardrobe = [] then .ok { intent := intent.label, outfits := [] }
    else
      let gem :=
        if strTruthy geminiKey then (suggestGemini geminiKey outcomes wardrobe 3).1
        else none
      let usedGemini := gem.isSome
      let raw1 : RawOutfits := match gem with | some g => .rgem g | none => .rlist []
      let raw2 :=
        if rawTruthy raw1 then raw1
        else .rlist (assembleOutfits env text wardrobe intent.label 3)
      let raw3 := if rawTruthy raw2 then raw2 else .rlist (fallbackOutfits wardrobe)
      let outfits := (rawElems raw3).map fun o =>
        buildV2Outfit env usedGemini o text intent.label
      let sorted := (sortDescBy V2Outfit.score outfits).take 3
      .ok { intent := intent.label, outfits := sorted }

/-!  Concrete fixtures used by the counterexamples and witnesses.  The
embedding model is a black box, so any vector assignment is a possible
run; the fixtures pin encode to a constant unit vector and give the
square-root oracle the values it needs on the arising inputs. -/

/-- Fixture environment: every text embeds to the unit vector, whose
squared norm is one, and the square-root oracle maps one to one. -/
def testEnv : Env :=
  { encode := fun _ => [1, 0]
    sqrtQ := fun q => if q = 1 then 1 else 0
    nameToRgb := fun _ => none
    rgbToLab := fun _ => none
    deltaE := fun _ _ => 0
    webcolorsOk := false
    colormathOk := false }

/-- A faithful square-root oracle for the cosine witness. -/
def sqrtPos : ℚ → ℚ := fun q => if q = 0 then 0 else 1

/-- Environment with the faithful oracle. -/
def envPos : Env := { testEnv with sqrtQ := sqrtPos }

/-- A top owned by user one. -/
def dbTop1 : DbItem :=
  { id := 1, itemType := some "Shirt", color := none, image_url := none,
    category := some "top", image_description := none, embedding := none,
    user_id := some 1 }

/-- A bottom owned by user two. -/
def dbBottom2 : DbItem :=
  { id := 2, itemType := some "Jeans", color := none, image_url := none,
    category := some "bottom", image_description := none, embedding := none,
    user_id := some 2 }

/-- Two items owned by two different users, one top and one bottom. -/
def dbMix : List DbItem := [dbTop1, dbBottom2]

/-- A minimal single-owner catalog covering the three required slots. -/
def dbTriple : List DbItem :=
  [ { id := 1, itemType := some "Shirt", color := none, image_url := none,
      category := some "top", image_description := none, embedding := none,
      user_id := some 1 },
    { id := 2, itemType := some "Jeans", color := none, image_url := none,
      category := some "bottom", image_description := none, embedding := none,
      user_id := some 1 },
    { id := 3, itemType := some "Sneakers", color := none, image_url := none,
      category := some "footwear", image_description := none, embedding := none,
      user_id := some 1 } ]

/-- Oracle for runs in which no LLM request happens or the single
request times out. -/
def ocDown : ℕ → HttpOutcome := fun _ => .timeout

/-- A parsed model response carrying two outfits that reference only
valid catalog ids of dbTriple, each with its own rationale. -/
def gjTwo : GJson :=
  { intent := some "outfit"
    itemType := none
    outfits := some
      [ { top := some (some 1), bottom := some (some 2), footwear := some (some 3),
          layer := none, accessories := none, rationale := some "Great business look." },
        { top := some (some 1), bottom := some (some 2), footwear := some (some 3),
          layer := none, accessories := none, rationale := some "Smart and simple." } ]
    rationale := none }

/-- Oracle for a run whose single request succeeds with gjTwo. -/
def ocOk : ℕ → HttpOutcome := fun _ => .resp 200 (some gjTwo)

/-- Oracle whose first attempt is rate limited and whose second attempt
would succeed, were it ever made. -/
def ocRate : ℕ → HttpOutcome := fun n => if n = 0 then .resp 429 none else .resp 200 (some gjTwo)

/-!  Claim C10. -/

/-- C10: the shared cosine helper is total by construction and returns
exactly zero whenever either input is a zero vector (equivalently has
zero norm, for any square-root oracle that, like the real square root,
vanishes only at zero on the non-negative squared norms), so no
scoring path divides by zero: the division is guarded by the zero test
on the norm product. -/
theorem cosine_zero_norm_guard (env : Env) (a b : Vec)
    (hs : SqrtFaithful env.sqrtQ)
    (h : (∀ x ∈ a, x = 0) ∨ (∀ x ∈ b, x = 0)) :
    cosineSim env a b = 0 := by
  have hz : env.sqrtQ (sumSq a) * env.sqrtQ (sumSq b) = 0 := by
    rcases h with h | h
    · have : sumSq a = 0 := (sumSq_eq_zero_iff a).mpr h
      rw [this, (hs 0 le_rfl).mpr rfl, zero_mul]
    · have : sumSq b = 0 := (sumSq_eq_zero_iff b).mpr h
      rw [this, (hs 0 le_rfl).mpr rfl, mul_zero]
  simp [cosineSim, hz]

/-- Witness for the C10 theorem: the guard applied to a concrete zero
vector under the faithful oracle. -/
theorem cosine_zero_norm_guard_witness : cosineSim envPos [0, 0] [1, 2] = 0 :=
  cosine_zero_norm_guard envPos [0, 0] [1, 2]
    (fun q _ => by by_cases h : q = 0 <;> simp [envPos, testEnv, sqrtPos, h])
    (Or.inl (by decide))

/-!  Claim C4. -/

unseal Rat.add Rat.sub Rat.mul Rat.inv Rat.ofScientific in
/-- C4: the final ranking score of the rule-based selector weights
color harmony 0.6 and semantic similarity 0.4 (selector.py line 423),
not 0.4 and 0.6 as the claim, the specification and the inline
comments above that line state: at color score one and semantic score
zero under the casual bias 0.03 the code yields 0.63 where the claimed
formula yields 0.43. -/
theorem selector_total_weights_flipped :
    selectorTotal "casual" 1 0 = 63 / 100
    ∧ selectorTotalSpec "casual" 1 0 = 43 / 100
    ∧ selectorTotal "casual" 1 0 ≠ selectorTotalSpec "casual" 1 0 := by
  refine ⟨by decide, by decide, by decide⟩

/-!  Claim C6. -/

unseal Rat.add Rat.sub Rat.mul Rat.inv Rat.ofScientific in
/-- C6 counterexample: the delegate makes exactly one HTTP attempt; on
a 429 rate-limit status it returns a null result after that single
attempt even though the oracle would answer the second attempt with a
fully valid response, so no retry with backoff exists. -/
theorem gemini_no_retry_on_429 :
    suggestGemini (some "key") ocRate (suggestV2Wardrobe dbTriple) 3 = (none, 1) := by
  decide

/-- C6 amended: whenever a non-blank key is configured the delegate
performs exactly one HTTP attempt, and every non-200 status (429
included, like timeouts and transport errors) yields a null result
immediately. -/
theorem gemini_single_attempt (key : Option String) (oc : ℕ → HttpOutcome)
    (w : List ItemDict) (lim : ℕ) (hk : strTruthy (key.map pyStrip)) :
    (suggestGemini key oc w lim).2 = 1
    ∧ ∀ st b, oc 0 = .resp st b → st ≠ 200 → (suggestGemini key oc w lim).1 = none := by
  constructor
  · unfold suggestGemini
    rw [if_neg (by simp [hk])]
    cases oc 0 with
    | timeout => rfl
    | connError => rfl
    | reqError => rfl
    | resp st body => by_cases h : st = 200 <;> simp [h]
  · intro st b hoc hst
    unfold suggestGemini
    rw [if_neg (by simp [hk]), hoc]
    simp [hst]

/-- Witness for the amended C6 theorem at a concrete key and oracle. -/
theorem gemini_single_attempt_witness :
    (suggestGemini (some "key") ocRate (suggestV2Wardrobe dbTriple) 3).2 = 1
    ∧ (suggestGemini (some "key") ocRate (suggestV2Wardrobe dbTriple) 3).1 = none := by
  have h := gemini_single_attempt (some "key") ocRate (suggestV2Wardrobe dbTriple) 3
    (by decide)
  exact ⟨h.1, h.2 429 none (by decide) (by decide)⟩

/-!  Claim C8. -/

/-- A first retriever item with stored embedding. -/
def rOne : DbItem :=
  { id := 1, itemType := some "Shirt", color := some "blue", image_url := none,
    category := some "top", image_description := none, embedding := some [1, 0],
    user_id := some 1 }

/-- A second retriever item with the same stored embedding. -/
def rTwo : DbItem :=
  { id := 2, itemType := some "Polo", color := some "red", image_url := none,
    category := some "top", image_description := none, embedding := some [1, 0],
    user_id := some 1 }

/-- The common score both items receive from the retriever formula. -/
def tieScore : ℚ := retrieverItemScore testEnv [1, 0] none [1, 0]

unseal Rat.add Rat.sub Rat.mul Rat.inv Rat.ofScientific in
/-- C8 counterexample: two items with equal scores keep their load
order after the per-slot ranking.  Loaded as id two before id one, the
ranking emits id two first (not ascending id), and the retained
top-one set is id two for one load order and id one for the other, so
the retained set is not independent of the order items are loaded. -/
theorem retriever_tie_order_counterexample :
    retrieverRank [(rTwo, tieScore), (rOne, tieScore)] 2 = [rTwo, rOne]
    ∧ retrieverRank [(rTwo, tieScore), (rOne, tieScore)] 1 = [rTwo]
    ∧ retrieverRank [(rOne, tieScore), (rTwo, tieScore)] 1 = [rOne] := by
  exact ⟨by decide, by decide, by decide⟩

/-- C8 amended: the per-slot ranking sorts by non-increasing score and
is stable, so equal-score items appear in exactly their load order
(there is no id tie-break), and it retains min of the limit and the
pool size items. -/
theorem retriever_rank_stable_sort (scored : List (DbItem × ℚ)) (lim : ℕ) (c : ℚ) :
    (sortDescBy Prod.snd scored).Sorted (descRel Prod.snd)
    ∧ (sortDescBy Prod.snd scored).filter (fun p => p.2 = c)
        = scored.filter (fun p => p.2 = c)
    ∧ (retrieverRank scored lim).length = min lim scored.length := by
  refine ⟨sortDescBy_sorted _ _, sortDescBy_stable _ _ _, ?_⟩
  simp [retrieverRank, List.length_take, (sortDescBy_perm Prod.snd scored).length_eq]

/-!  Claim C7. -/

unseal Rat.add Rat.sub Rat.mul Rat.inv Rat.ofScientific in
/-- C7 counterexample: with an empty catalog the endpoint returns an
empty outfit list, but the intent field carries the classified label
(here business under the fixture embedding), never the word none. -/
theorem empty_wardrobe_intent_not_none :
    (suggestV2 testEnv [] none ocDown { text := "business meeting", limit := some 3 }).toOption
      = some { intent := "business", outfits := [] }
    ∧ "business" ≠ "none" := by
  exact ⟨by decide, by decide⟩

/-- The classified label always belongs to the fixed label table. -/
theorem classify_label_mem (env : Env) (text : String) :
    (classifyIntent env text).label ∈ intentLabels := by
  have h : ∀ l : List (String × ℚ),
      l.Perm (intentLabels.map fun lb =>
        (lb, meanOrZero ((intentSeeds lb).map fun s =>
          cosineSim env (env.encode text) (env.encode s)))) →
      (l.headD ("casual", 0)).1 ∈ intentLabels := by
    intro l hp
    cases l with
    | nil =>
      have := hp.length_eq
      simp [intentLabels] at this
    | cons hd tl =>
      have hmem : hd ∈ intentLabels.map fun lb =>
          (lb, meanOrZero ((intentSeeds lb).map fun s =>
            cosineSim env (env.encode text) (env.encode s))) :=
        hp.subset (List.mem_cons_self hd tl)
      obtain ⟨lb, hlb, heq⟩ := List.mem_map.mp hmem
      simpa [← heq] using hlb
  exact h _ (sortDescBy_perm _ _)

/-- C7 amended: for an empty catalog and non-blank text the endpoint
responds with an empty outfit list and with the classified intent
label, which is always one of the seven labels of the classifier and
hence never the word none. -/
theorem empty_wardrobe_response (env : Env) (key : Option String)
    (oc : ℕ → HttpOutcome) (db : List DbItem) (req : V2Req)
    (hdb : db = []) (ht : pyStrip req.text ≠ "") :
    suggestV2 env db key oc req
      = .ok { intent := (classifyIntent env (pyStrip req.text)).label, outfits := [] }
    ∧ (classifyIntent env (pyStrip req.text)).label ∈ intentLabels
    ∧ "none" ∉ intentLabels := by
  subst hdb
  refine ⟨?_, classify_label_mem env (pyStrip req.text), by decide⟩
  unfold suggestV2
  rw [if_neg ht]
  rfl

/-- Witness for the amended C7 theorem at the fixture environment. -/
theorem empty_wardrobe_response_witness :
    suggestV2 testEnv [] none ocDown { text := "hiking trip", limit := none }
      = .ok { intent := (classifyIntent testEnv (pyStrip "hiking trip")).label, outfits := [] }
    ∧ (classifyIntent testEnv (pyStrip "hiking trip")).label ∈ intentLabels := by
  have h := empty_wardrobe_response testEnv none ocDown []
    { text := "hiking trip", limit := none } rfl (by decide)
  exact ⟨h.1, h.2.1⟩

/-!  Claim C1. -/

unseal Rat.add Rat.sub Rat.mul Rat.inv Rat.ofScientific in
/-- C1 counterexample: a request against a catalog holding items of two
different owners produces an outfit whose top is item one, owned by
user one, and whose bottom is item two, owned by user two: the items
of one emitted outfit do not share an owner, because the endpoint
never filters by owner. -/
theorem endpoint_mixes_owners :
    ((suggestV2 testEnv dbMix none ocDown { text := "dinner", limit := some 3 }).toOption.map
      fun r => r.outfits.map fun o => (o.top.map V2Item.id, o.bottom.map V2Item.id))
      = some [(some 1, some 2)]
    ∧ dbTop1.user_id = some 1 ∧ dbBottom2.user_id = some 2
    ∧ dbTop1.id = 1 ∧ dbBottom2.id = 2 := by
  exact ⟨by decide, rfl, rfl, rfl, rfl⟩

/-- C1 amended: the endpoint loads the whole item table with no owner
filter: every stored item, whatever its user id, is a candidate of
every request. -/
theorem endpoint_candidates_unfiltered (db : List DbItem) (it : DbItem) (h : it ∈ db) :
    modelToDict it ∈ suggestV2Wardrobe db :=
  List.mem_map_of_mem modelToDict h

/-- Witness for the amended C1 theorem: the item of user two is a
candidate in the mixed catalog. -/
theorem endpoint_candidates_unfiltered_witness :
    modelToDict dbBottom2 ∈ suggestV2Wardrobe dbMix :=
  endpoint_candidates_unfiltered dbMix dbBottom2 (by decide)

/-!  Claim C5. -/

unseal Rat.add Rat.sub Rat.mul Rat.inv Rat.ofScientific in
/-- C5 counterexample: a request with limit one still yields three
outfits: the handler never reads the limit field, calls the engines
with three, and truncates at three. -/
theorem limit_one_yields_three_outfits :
    ((suggestV2 testEnv dbTriple none ocDown { text := "casual day", limit := some 1 }).toOption.map
      fun r => r.outfits.length) = some 3 := by
  decide

/-- C5 amended: the response is independent of the requested limit, and
it contains at most three outfits whatever the limit. -/
theorem endpoint_limit_unused (env : Env) (db : List DbItem) (key : Option String)
    (oc : ℕ → HttpOutcome) (text : String) (l1 l2 : Option ℤ) :
    suggestV2 env db key oc { text := text, limit := l1 }
      = suggestV2 env db key oc { text := text, limit := l2 }
    ∧ ∀ r, suggestV2 env db key oc { text := text, limit := l1 } = .ok r →
        r.outfits.length ≤ 3 := by
  refine ⟨rfl, ?_⟩
  intro r h
  unfold suggestV2 at h
  by_cases h1 : pyStrip text = ""
  · rw [if_pos h1] at h
    cases h
  · rw [if_neg h1] at h
    by_cases h2 : suggestV2Wardrobe db = []
    · rw [if_pos h2] at h
      injection h with h3
      subst h3
      simp
    · rw [if_neg h2] at h
      injection h with h3
      subst h3
      simp only [List.length_take]
      omega

unseal Rat.add Rat.sub Rat.mul Rat.inv Rat.ofScientific in
/-- Witness for the amended C5 theorem: concrete limits one and two
give the same response, whose outfit list is within the bound. -/
theorem endpoint_limit_unused_witness :
    suggestV2 testEnv [] none ocDown { text := "casual day", limit := some 1 }
      = suggestV2 testEnv [] none ocDown { text := "casual day", limit := some 2 }
    ∧ (⟨"business", []⟩ : V2Resp).outfits.length ≤ 3 :=
  ⟨(endpoint_limit_unused testEnv [] none ocDown "casual day" (some 1) (some 2)).1,
   (endpoint_limit_unused testEnv [] none ocDown "casual day" (some 1) (some 2)).2
     ⟨"business", []⟩ rfl⟩

/-!  Claim C2. -/

unseal Rat.add Rat.sub Rat.mul Rat.inv Rat.ofScientific in
/-- C2: with a configured key and a parseable model response holding
two outfits whose ids are all valid, the delegate validates both, yet
the endpoint response holds three outfits, all of whose slots are
null and whose scores are five, because the handler iterates the keys
of the dictionary the delegate returns as if they were outfits.  The
model outfits, their rationales and the score one hundred never reach
the response. -/
theorem endpoint_drops_gemini_outfits :
    (validateGemini (suggestV2Wardrobe dbTriple) 3 gjTwo).map
        (fun g => (g.outfits.length, g.outfits.map GOutfit.rationale))
      = some (2, ["Great business look.", "Smart and simple."])
    ∧ ((suggestV2 testEnv dbTriple (some "key") ocOk
          { text := "business meeting", limit := some 3 }).toOption.map
        fun r => r.outfits.map fun o =>
          ((o.top, o.bottom, o.footwear), (o.outerwear, o.accessories), o.score))
      = some [((none, none, none), (none, none), 5), ((none, none, none), (none, none), 5),
              ((none, none, none), (none, none), 5)] := by
  exact ⟨by decide, by decide⟩

/-!  Claim C3. -/

unseal Rat.add Rat.sub Rat.mul Rat.inv Rat.ofScientific in
/-- C3 counterexample: a non-empty catalog with a top and a bottom but
no footwear produces a response with one outfit that has top and
bottom filled and footwear null: a partial outfit, not an empty
outfit list. -/
theorem endpoint_emits_incomplete_outfit :
    ((suggestV2 testEnv dbMix none ocDown { text := "dinner", limit := some 3 }).toOption.map
      fun r => r.outfits.map fun o => (o.top.isSome, o.bottom.isSome, o.footwear.isSome))
      = some [(true, true, false)]
    ∧ dbMix ≠ [] := by
  exact ⟨by decide, by decide⟩

theorem lookupA_addToPool_ne (m : List (String × List ItemDict)) (c r : String)
    (it : ItemDict) (h : c ≠ r) :
    lookupA (addToPool m c it) r = lookupA m r := by
  induction m with
  | nil => simp [addToPool, lookupA, h]
  | cons p t ih =>
    obtain ⟨k, items⟩ := p
    by_cases hk : k = c
    · subst hk
      simp [addToPool, lookupA, h]
    · simp [addToPool, hk, lookupA, ih]

theorem lookupA_foldPools_none (r : String) :
    ∀ (w : List ItemDict) (m : List (String × List ItemDict)),
      (∀ it ∈ w, normCat it ≠ r) → lookupA m r = none →
      lookupA (w.foldl (fun m it =>
        let c := normCat it; if c = "" then m else addToPool m c it) m) r = none := by
  intro w
  induction w with
  | nil => intro m _ hm; simpa using hm
  | cons it t ih =>
    intro m h hm
    simp only [List.foldl_cons]
    refine ih _ (fun x hx => h x (List.mem_cons_of_mem it hx)) ?_
    by_cases hc : normCat it = ""
    · simpa [hc] using hm
    · have hit : normCat it ≠ r := h it (List.mem_cons_self it t)
      simp only [if_neg hc]
      rw [lookupA_addToPool_ne m (normCat it) r it hit]
      exact hm

theorem lookupA_buildPools_none (w : List ItemDict) (r : String)
    (h : ∀ it ∈ w, normCat it ≠ r) :
    lookupA (buildPools w) r = none :=
  lookupA_foldPools_none r w [] h rfl

theorem lookupA_map_snd {β γ : Type} (m : List (String × β)) (f : String → β → γ)
    (r : String) :
    lookupA (m.map fun p => (p.1, f p.1 p.2)) r = (lookupA m r).map (f r) := by
  induction m with
  | nil => simp [lookupA]
  | cons p t ih =>
    obtain ⟨k, v⟩ := p
    by_cases hk : k = r
    · subst hk
      simp [lookupA]
    · simp [lookupA, hk, ih]

theorem lookupA_catBestFiltered_none (env : Env) (q : String) (w : List ItemDict)
    (label r : String) (h : lookupA (buildPools w) r = none) :
    lookupA (selectorCatBestFiltered env q w label) r = none := by
  have h0 : lookupA (selectorCatBest env q w label) r = none := by
    simp only [selectorCatBest]
    rw [lookupA_map_snd, h]
    rfl
  simp only [selectorCatBestFiltered]
  split_ifs <;> simp only [lookupA_map_snd, h0, Option.map_none']

/-- C3 amended: the rule-based selector emits no outfit at all when the
catalog lacks one of the three required categories (so a missing slot
gives an empty selector result, as claimed); the endpoint, however,
does not stop there: its fallback then builds one partial outfit, as
the counterexample records. -/
theorem selector_requires_all_slots (env : Env) (q : String) (w : List ItemDict)
    (label : String) (k : ℕ) (r : String)
    (hr : r ∈ ["top", "bottom", "footwear"])
    (h : ∀ it ∈ w, normCat it ≠ r) :
    assembleOutfits env q w label k = [] := by
  have h2 : lookupA (selectorCatBestFiltered env q w label) r = none :=
    lookupA_catBestFiltered_none env q w label r (lookupA_buildPools_none w r h)
  unfold assembleOutfits
  rw [if_neg]
  intro hall
  have := List.all_eq_true.mp hall r hr
  rw [h2] at this
  simp at this

unseal Rat.add Rat.sub Rat.mul Rat.inv Rat.ofScientific in
/-- Witness for the amended C3 theorem: the mixed catalog has no
footwear, and the selector returns no outfit on it. -/
theorem selector_requires_all_slots_witness :
    assembleOutfits testEnv "dinner" (suggestV2Wardrobe dbMix) "casual" 3 = [] :=
  selector_requires_all_slots testEnv "dinner" (suggestV2Wardrobe dbMix) "casual" 3
    "footwear" (by decide) (by decide)

/-!  Claim C9. -/

/-- Fixture top for the business run. -/
def itemShirt : ItemDict :=
  { id := 11, name := "Shirt", category := some "top", color := none,
    image_url := none, description := none, embedding := some [1, 0] }

/-- Fixture bottom for the business run. -/
def itemTrouser : ItemDict :=
  { id := 12, name := "Trouser", category := some "bottom", color := none,
    image_url := none, description := none, embedding := some [1, 0] }

/-- Fixture footwear free of every business avoid token. -/
def itemLoafer : ItemDict :=
  { id := 13, name := "Loafer", category := some "footwear", color := none,
    image_url := none, description := none, embedding := some [1, 0] }

/-- Fixture footwear carrying the token sandal, which the per-slot
business avoid list names but the hard filter list does not. -/
def itemSandal : ItemDict :=
  { id := 14, name := "Sandal", category := some "footwear", color := none,
    image_url := none, description := none, embedding := some [1, 0] }

/-- Business fixture wardrobe. -/
def w9 : List ItemDict := [itemShirt, itemTrouser, itemLoafer, itemSandal]

unseal Rat.add Rat.sub Rat.mul Rat.inv Rat.ofScientific in
/-- C9 counterexample: under intent business the selector emits three
outfits, the second and third of which wear the sandal, although
sandal is a token of the business footwear avoid list of INTENT_RULES
and the same footwear pool offers the loafer, an alternative free of
every one of those tokens.  The pool is the scored pre-filter pool;
the hard filter only applies the separate HARD_AVOID list, which
omits slide and sandal. -/
theorem business_avoid_sandal_emitted :
    (assembleOutfits testEnv "business meeting" w9 "business" 3).map
        (fun o => o.map fun p => (p.1, p.2.id))
      = [[("top", 11), ("bottom", 12), ("footwear", 13)],
         [("top", 11), ("bottom", 12), ("footwear", 14)],
         [("top", 11), ("bottom", 12), ("footwear", 14)]]
    ∧ "sandal" ∈ (intentRules "business" "footwear").2
    ∧ pyIn "sandal" (nameDescLower itemSandal) = true
    ∧ ((lookupA (selectorCatBest testEnv "business meeting" w9 "business") "footwear").map
        (List.map fun p => p.1.id)) = some [13, 14]
    ∧ (intentRules "business" "footwear").2.all
        (fun t => !pyIn t (nameDescLower itemLoafer)) = true := by
  exact ⟨by decide, by decide, by decide, by decide, by decide⟩

theorem lookupA_mem {β : Type} (m : List (String × β)) (k : String) (v : β)
    (h : lookupA m k = some v) : (k, v) ∈ m := by
  induction m with
  | nil => simp [lookupA] at h
  | cons p t ih =>
    obtain ⟨k2, v2⟩ := p
    by_cases hk : k2 = k
    · subst hk
      rw [lookupA, if_pos rfl] at h
      injection h with h2
      subst h2
      exact List.mem_cons_self _ _
    · rw [lookupA, if_neg hk] at h
      exact List.mem_cons_of_mem _ (ih h)

theorem getD_mem {α : Type} (l : List α) (n : ℕ) (d : α) (hd : d ∈ l) :
    l.getD n d ∈ l := by
  rw [List.getD_eq_getElem?_getD]
  cases h : l[n]? with
  | none => simpa using hd
  | some a => simpa using List.getElem?_mem h

theorem mem_buildReq (catBest : List (String × List (ItemDict × ℚ))) (i : ℕ) :
    ∀ (cs : List String) (p : String × ItemDict), p ∈ buildReq catBest i cs →
      ∃ s, (p.2, s) ∈ (lookupA catBest p.1).getD [] := by
  intro cs
  induction cs with
  | nil => simp [buildReq]
  | cons c t ih =>
    intro p hp
    rw [buildReq] at hp
    cases hpool : (lookupA catBest c).getD [] with
    | nil => rw [hpool] at hp; simp at hp
    | cons q qs =>
      rw [hpool] at hp
      rcases List.mem_cons.mp hp with rfl | hmem
      · refine ⟨((q :: qs).getD (min i qs.length) q).2, ?_⟩
        rw [hpool]
        exact getD_mem (q :: qs) (min i qs.length) q (List.mem_cons_self q qs)
      · exact ih p hmem

theorem mem_addOpt (catBest : List (String × List (ItemDict × ℚ))) (label : String)
    (c : OutfitD) (opt : String) (p : String × ItemDict)
    (hp : p ∈ addOpt catBest label c opt) :
    p ∈ c ∨ ∃ s, (p.2, s) ∈ (lookupA catBest p.1).getD [] := by
  rw [addOpt] at hp
  cases hpool : (lookupA catBest opt).getD [] with
  | nil => rw [hpool] at hp; exact Or.inl hp
  | cons q qs =>
    rw [hpool] at hp
    dsimp only at hp
    by_cases hc : opt = "layer" ∧ labelInRules label ∧ (intentRules label "layer").1 ≠ []
    · rw [if_pos hc] at hp
      rcases List.mem_append.mp hp with h | h
      · exact Or.inl h
      · right
        have hpe : p = (opt, ((((q :: qs).find? fun x =>
            (intentRules label "layer").1.any fun t =>
              pyIn t (nameDescLower x.1)).map Prod.fst).getD q.1)) := by
          simpa using h
        subst hpe
        dsimp only
        rw [hpool]
        cases hfind : ((q :: qs).find? fun x =>
            (intentRules label "layer").1.any fun t => pyIn t (nameDescLower x.1)) with
        | none =>
          exact ⟨q.2, by simp⟩
        | some pr =>
          exact ⟨pr.2, by simpa using List.mem_of_find?_eq_some hfind⟩
    · rw [if_neg hc] at hp
      rcases List.mem_append.mp hp with h | h
      · exact Or.inl h
      · right
        have hpe : p = (opt, q.1) := by simpa using h
        subst hpe
        dsimp only
        rw [hpool]
        exact ⟨q.2, List.mem_cons_self q qs⟩

theorem mem_addOptional (catBest : List (String × List (ItemDict × ℚ))) (label : String)
    (cand : OutfitD) (p : String × ItemDict) (hp : p ∈ addOptional catBest label cand) :
    p ∈ cand ∨ ∃ s, (p.2, s) ∈ (lookupA catBest p.1).getD [] := by
  have h1 := mem_addOpt catBest label (addOpt catBest label cand "layer") "accessories" p
    (by simpa [addOptional] using hp)
  rcases h1 with h1 | h1
  · exact mem_addOpt catBest label cand "layer" p h1
  · exact Or.inr h1

theorem mem_greedyOutfits (catBest : List (String × List (ItemDict × ℚ)))
    (label : String) (k : ℕ) (o : OutfitD) (ho : o ∈ greedyOutfits catBest label k) :
    ∃ i, o = addOptional catBest label (buildRequired catBest i) := by
  have haux : ∀ (idxs : List ℕ) (st : List OutfitD × Bool),
      (∀ x ∈ st.1, ∃ i, x = addOptional catBest label (buildRequired catBest i)) →
      ∀ x ∈ (idxs.foldl (greedyStep catBest label k) st).1,
        ∃ i, x = addOptional catBest label (buildRequired catBest i) := by
    intro idxs
    induction idxs with
    | nil => intro st h; simpa using h
    | cons i t ih =>
      intro st h
      simp only [List.foldl_cons]
      refine ih _ ?_
      intro x hx
      rw [greedyStep] at hx
      by_cases hb : st.2
      · rw [if_pos hb] at hx
        exact h x hx
      · rw [if_neg hb] at hx
        simp only at hx
        by_cases hlen : 3 ≤ (addOptional catBest label (buildRequired catBest i)).length
        · rw [if_pos hlen] at hx
          rcases List.mem_append.mp hx with hx | hx
          · exact h x hx
          · exact ⟨i, by simpa using hx⟩
        · rw [if_neg hlen] at hx
          exact h x hx
  exact haux (List.range 10) ([], false) (by simp) o ho

theorem bizFilterPairs_avoid (cat : String) (pairs : List (ItemDict × ℚ))
    (x : ItemDict × ℚ) (hx : x ∈ bizFilterPairs cat pairs) :
    hasToken hardAvoidList x = false ∨ ∀ p ∈ pairs, hasToken hardAvoidList p = true := by
  by_cases hfe : pairs.filter (fun p => !hasToken hardAvoidList p) = []
  · right
    intro p hp
    have := List.filter_eq_nil_iff.mp hfe p hp
    simpa using this
  · left
    rw [bizFilterPairs] at hx
    set filtered := pairs.filter (fun p => !hasToken hardAvoidList p) with hfdef
    have hsub1 : ∀ y ∈ (if filtered.filter (fun p => hasToken hardPreferList p) ≠ [] then
        filtered.filter (fun p => hasToken hardPreferList p) ++
          filtered.filter (fun y2 =>
            decide (y2 ∉ filtered.filter (fun p => hasToken hardPreferList p)))
      else if filtered ≠ [] then filtered else pairs), y ∈ filtered := by
      intro y hy
      by_cases hpe : filtered.filter (fun p => hasToken hardPreferList p) ≠ []
      · rw [if_pos hpe] at hy
        rcases List.mem_append.mp hy with h | h
        · exact List.mem_of_mem_filter h
        · exact List.mem_of_mem_filter h
      · rw [if_neg hpe, if_pos hfe] at hy
        exact hy
    set pairs1 := (if filtered.filter (fun p => hasToken hardPreferList p) ≠ [] then
        filtered.filter (fun p => hasToken hardPreferList p) ++
          filtered.filter (fun y2 =>
            decide (y2 ∉ filtered.filter (fun p => hasToken hardPreferList p)))
      else if filtered ≠ [] then filtered else pairs) with hp1def
    have hsub2 : ∀ y ∈ (if cat = "layer" then
        (if pairs1.filter (fun p => pyIn "blazer" (itemText p)) ≠ [] then
          pairs1.filter (fun p => pyIn "blazer" (itemText p)) ++
            pairs1.filter (fun y2 =>
              decide (y2 ∉ pairs1.filter (fun p => pyIn "blazer" (itemText p))))
        else pairs1)
      else pairs1), y ∈ pairs1 := by
      intro y hy
      by_cases hl : cat = "layer"
      · rw [if_pos hl] at hy
        by_cases hb : pairs1.filter (fun p => pyIn "blazer" (itemText p)) ≠ []
        · rw [if_pos hb] at hy
          rcases List.mem_append.mp hy with h | h
          · exact List.mem_of_mem_filter h
          · exact List.mem_of_mem_filter h
        · rw [if_neg hb] at hy
          exact hy
      · rw [if_neg hl] at hy
        exact hy
    have hx2 : x ∈ filtered := hsub1 x (hsub2 x (List.mem_of_mem_take hx))
    have := List.of_mem_filter hx2
    simpa using this

theorem catBestFiltered_business (env : Env) (q : String) (w : List ItemDict) :
    selectorCatBestFiltered env q w "business"
      = (selectorCatBest env q w "business").map fun p => (p.1, bizFilterPairs p.1 p.2) := by
  simp [selectorCatBestFiltered]

/-- C9 amended: under intent business, every item of every emitted
outfit is either free of all tokens of the hard filter list HARD_AVOID
(which, unlike the per-slot business avoid lists, omits slide and
sandal) or sits in a slot whose whole scored pre-filter pool matches a
HARD_AVOID token, in which case the filter was suppressed for that
slot. -/
theorem business_hard_filter_amended (env : Env) (q : String) (w : List ItemDict)
    (k : ℕ) (o : OutfitD) (ho : o ∈ assembleOutfits env q w "business" k)
    (cat : String) (it : ItemDict) (hl : lookupA o cat = some it) :
    (hardAvoidList.any fun t => pyIn t (nameDescLower it)) = false
    ∨ ∀ p ∈ (lookupA (selectorCatBest env q w "business") cat).getD [],
        hasToken hardAvoidList p = true := by
  have hg : o ∈ greedyOutfits (selectorCatBestFiltered env q w "business") "business" k := by
    rw [assembleOutfits] at ho
    by_cases hreq : (["top", "bottom", "footwear"].all fun r =>
        (lookupA (selectorCatBestFiltered env q w "business") r).isSome) = true
    · rw [if_pos hreq] at ho
      obtain ⟨pr, hpr, hfst⟩ := List.mem_map.mp ho
      have h2 := List.mem_of_mem_take hpr
      have h3 := (sortDescBy_perm Prod.snd _).subset h2
      obtain ⟨o2, ho2, heq⟩ := List.mem_map.mp h3
      rw [← heq] at hfst
      dsimp only at hfst
      rw [hfst] at ho2
      exact ho2
    · rw [if_neg (by simpa using hreq)] at ho
      simp at ho
  obtain ⟨i, rfl⟩ := mem_greedyOutfits _ _ _ _ hg
  have hmem := lookupA_mem _ _ _ hl
  have hdisj := mem_addOptional _ _ _ _ hmem
  have hpool : ∃ s, (it, s) ∈
      (lookupA (selectorCatBestFiltered env q w "business") cat).getD [] := by
    rcases hdisj with h | h
    · exact mem_buildReq _ _ _ _ h
    · exact h
  obtain ⟨s, hs⟩ := hpool
  rw [catBestFiltered_business, lookupA_map_snd] at hs
  cases h0 : lookupA (selectorCatBest env q w "business") cat with
  | none =>
    rw [h0] at hs
    simp at hs
  | some pairs0 =>
    rw [h0] at hs
    simp only [Option.map_some', Option.getD_some] at hs
    rcases bizFilterPairs_avoid cat pairs0 (it, s) hs with h | h
    · left
      simpa [hasToken, itemText] using h
    · right
      intro p hp
      exact h p (by simpa [h0] using hp)

unseal Rat.add Rat.sub Rat.mul Rat.inv Rat.ofScientific in
/-- Witness for the amended C9 theorem, applied to the first emitted outfit
of the business fixture run, whose footwear, the loafer, is indeed
free of every HARD_AVOID token. -/
theorem business_hard_filter_amended_witness :
    (hardAvoidList.any fun t => pyIn t (nameDescLower itemLoafer)) = false
    ∨ ∀ p ∈ (lookupA (selectorCatBest testEnv "business meeting" w9 "business")
        "footwear").getD [], hasToken hardAvoidList p = true :=
  business_hard_filter_amended testEnv "business meeting" w9 3
    [("top", itemShirt), ("bottom", itemTrouser), ("footwear", itemLoafer)]
    (by decide) "footwear" itemLoafer (by decide)
